import Mathlib

/-!
Verification of the node-db-abstraction data-access layer: a shallow
embedding of its statement compiler (Types.ts), its SQLite and MySQL
backends (SQLite.ts, MySQL.ts), and the SQLite execution scheduler
(timer-driven queue draining), together with theorems settling the
spec's claims about them.

JavaScript string primitives used by the source (startsWith, toLowerCase,
toUpperCase, trim, Array.prototype.join, first-occurrence replace) are
re-implemented here on character lists so that every definition is
executable by the kernel.  Node's util.format with only %s specifiers is
transcribed as string concatenation; the unknown %L specifier, which
util.format leaves untouched, is kept as a literal "%L" that the source
later substitutes with mysql's escape output.  SQL parameter values are
modelled as integers, for which mysql's escape emits the decimal literal
and wraps each nested array in parentheses, joining with ", ".
-/

namespace NodeDB

/-- Models JS String.prototype.startsWith at the list-of-characters level:
true when the second list is an initial segment of the first. -/
def startsWithList : List Char → List Char → Bool
  | _, [] => true
  | [], _ :: _ => false
  | c :: cs, p :: ps => c == p && startsWithList cs ps

/-- Substring test: true when the pattern occurs somewhere in the list. -/
def containsList : List Char → List Char → Bool
  | [], p => p.isEmpty
  | c :: cs, p => startsWithList (c :: cs) p || containsList cs p

/-- JS String.prototype.includes for Lean strings. -/
def strContains (s pat : String) : Bool := containsList s.data pat.data

/-- JS String.prototype.startsWith for Lean strings. -/
def jsStartsWith (s pat : String) : Bool := startsWithList s.data pat.data

/-- JS String.prototype.endsWith for Lean strings. -/
def jsEndsWith (s pat : String) : Bool :=
  startsWithList s.data.reverse pat.data.reverse

/-- JS String.prototype.toLowerCase (ASCII, which is all the source uses). -/
def jsToLower (s : String) : String := ⟨s.data.map Char.toLower⟩

/-- JS String.prototype.toUpperCase (ASCII). -/
def jsToUpper (s : String) : String := ⟨s.data.map Char.toUpper⟩

/-- JS String.prototype.trim: strip whitespace from both ends. -/
def jsTrim (s : String) : String :=
  ⟨((s.data.dropWhile Char.isWhitespace).reverse.dropWhile Char.isWhitespace).reverse⟩

/-- JS Array.prototype.join. -/
def jsJoin (sep : String) : List String → String
  | [] => ""
  | [x] => x
  | x :: xs => x ++ sep ++ jsJoin sep xs

/-- Helper for first-occurrence replacement, walking the subject list. -/
def replaceFirstAux (pat rep : List Char) : List Char → List Char
  | [] => []
  | c :: cs =>
    if startsWithList (c :: cs) pat then rep ++ (c :: cs).drop pat.length
    else c :: replaceFirstAux pat rep cs

/-- JS String.prototype.replace with a plain-string pattern: replaces only
the first occurrence (unlike Lean's String.replace). -/
def replaceFirst (s pat rep : String) : String :=
  ⟨replaceFirstAux pat.data rep.data s.data⟩

/-- JS truthiness of an optional string: undefined and the empty string are
falsy. -/
def strTruthy (o : Option String) : Bool :=
  match o with
  | none => false
  | some s => !s.isEmpty

/-- mysql escape of one value; SQL values are modelled as integers, which
mysql's SqlString.escape renders as their decimal literal. -/
def escapeVal (v : Int) : String := toString v

/-- mysql escape of a nested array element: wrapped in parentheses, members
joined with ", " (SqlString.arrayToList). -/
def escapeRow (r : List Int) : String :=
  "(" ++ jsJoin ", " (r.map escapeVal) ++ ")"

/-- mysql escape of a values array (an array of rows): rows joined with
", ", each row parenthesised. -/
def escape (rows : List (List Int)) : String :=
  jsJoin ", " (rows.map escapeRow)

/-- Interfaces.DBType from Types.ts. -/
inductive DBType where
  | MYSQL
  | POSTGRES
  | SQLITE
deriving DecidableEq

/-- Interfaces.IForeignKey from Types.ts. -/
structure IForeignKey where
  table : String
  column : String
  update : Option String := none
  delete : Option String := none
deriving DecidableEq

/-- Interfaces.ITableColumn from Types.ts.  The optional boolean flags are
modelled as plain booleans (absent = false), which coincides with the JS
truthiness / `=== true` tests the source applies to them. -/
structure ITableColumn where
  name : String
  type : String
  nullable : Bool := false
  foreign : Option IForeignKey := none
  unique : Bool := false
  default : Option String := none
deriving DecidableEq

/-- The return shape of prepareCreateTable: the CREATE TABLE text plus the
auxiliary CREATE UNIQUE INDEX statements. -/
structure CompiledStatement where
  table : String
  indexes : List String
deriving DecidableEq

/-- Transcribes prepareCreateTable from Types.ts.  Column clauses come from
format('%s %s %s %s', name, type, NOT NULL or NULL, DEFAULT part), so a
column without a default keeps a trailing space.  The dbType argument is
accepted and ignored, exactly as in the source. -/
def prepareCreateTable (dbType : DBType) (name : String)
    (fields : List ITableColumn) (primaryKey : List String)
    (tableOptions : Option String) : CompiledStatement :=
  let l_fields := fields.map fun col =>
    col.name ++ " " ++ col.type ++ " " ++
      (if !col.nullable then "NOT NULL" else "NULL") ++ " " ++
      (match col.default with
       | some d => "DEFAULT " ++ d
       | none => "")
  let l_unique := (fields.filter fun e => e.unique).map fun col =>
    "CREATE UNIQUE INDEX IF NOT EXISTS " ++ name ++ "_unique_" ++ col.name ++
      " ON " ++ name ++ " (" ++ col.name ++ ");"
  let l_constraints := fields.filterMap fun field =>
    match field.foreign with
    | none => none
    | some f =>
      let c0 := ", CONSTRAINT " ++ name ++ "_" ++ field.name ++
        "_fkey FOREIGN KEY (" ++ field.name ++ ") REFERENCES " ++
        f.table ++ " (" ++ f.column ++ ")"
      let c1 := if strTruthy f.delete then
          c0 ++ " ON DELETE " ++ jsToUpper (f.delete.getD "")
        else c0
      let c2 := if strTruthy f.update then
          c1 ++ " ON UPDATE " ++ jsToUpper (f.update.getD "")
        else c1
      some c2
  let sql := jsTrim ("CREATE TABLE IF NOT EXISTS " ++ name ++ " (" ++
    jsJoin ", " l_fields ++ ", PRIMARY KEY (" ++ jsJoin "," primaryKey ++
    ")" ++ jsJoin "," l_constraints ++ ") " ++ tableOptions.getD "" ++ ";")
  ⟨sql, l_unique⟩

/-- Transcribes SQLite.prototype.prepareMultiInsert from SQLite.ts.  The
source's format string is 'INSERT INTO %s (%s) %L': util.format fills the
two %s and leaves %L untouched; when values are supplied the %L is then
replaced (first occurrence, as JS replace does) with the escaped tuples.
Note the format string carries no VALUES keyword. -/
def SQLite.prepareMultiInsert (table : String) (columns : List String)
    (values : Option (List (List Int))) : String :=
  let query := "INSERT INTO " ++ table ++ " (" ++ jsJoin "," columns ++ ") %L"
  match values with
  | some v => replaceFirst query "%L" (escape v)
  | none => query

/-- Transcribes SQLite.prototype.prepareMultiUpdate from SQLite.ts: the
multi-insert over primaryKey ++ columns, then ' ON CONFLICT (pk) DO UPDATE
SET ' and the comma-joined update assignments, each assignment built from
format(' %s = excluded.%s', column, column) and hence carrying a leading
space. -/
def SQLite.prepareMultiUpdate (table : String) (primaryKey columns : List String)
    (values : Option (List (List Int))) : String :=
  let query := SQLite.prepareMultiInsert table (primaryKey ++ columns) values
  let updates := columns.map fun column => " " ++ column ++ " = excluded." ++ column
  query ++ " ON CONFLICT (" ++ jsJoin "," primaryKey ++ ") DO UPDATE SET " ++
    jsJoin "," updates

/-- Transcribes MySQL.prototype.prepareMultiInsert from MySQL.ts; unlike the
SQLite twin its format string is 'INSERT INTO %s (%s) VALUES %L'. -/
def MySQL.prepareMultiInsert (table : String) (columns : List String)
    (values : Option (List (List Int))) : String :=
  let query := "INSERT INTO " ++ table ++ " (" ++ jsJoin "," columns ++ ") VALUES %L"
  match values with
  | some v => replaceFirst query "%L" (escape v)
  | none => query

/-- Transcribes MySQL.prototype.prepareMultiUpdate from MySQL.ts: the
multi-insert over primaryKey ++ columns, then ' ON DUPLICATE KEY UPDATE '
and the comma-joined assignments built from format(' %s = VALUES(%s)'),
each carrying a leading space. -/
def MySQL.prepareMultiUpdate (table : String) (primaryKey columns : List String)
    (values : Option (List (List Int))) : String :=
  let query := MySQL.prepareMultiInsert table (primaryKey ++ columns) values
  let updates := columns.map fun column => " " ++ column ++ " = VALUES(" ++ column ++ ")"
  query ++ " ON DUPLICATE KEY UPDATE " ++ jsJoin "," updates

/-- An execution environment: the outcome the database driver gives one
statement text, none meaning success and some e the error it rejects with. -/
abbrev Env := String → Option String

/-- Transcribes the createTable helper of Types.ts: compile the spec, run
the table statement in a transaction, and when the index list is non-empty
run the indexes in a second transaction.  txn is the backend's transaction
method, given the ordered statement texts of one atomic batch. -/
def createTable (txn : List String → Except String Unit) (dbType : DBType)
    (name : String) (fields : List ITableColumn) (primaryKey : List String)
    (tableOptions : Option String) : Except String Unit :=
  let preparedTable := prepareCreateTable dbType name fields primaryKey tableOptions
  match txn [preparedTable.table] with
  | Except.error e => Except.error e
  | Except.ok _ =>
    if preparedTable.indexes.length != 0 then txn preparedTable.indexes
    else Except.ok ()

/-- Transcribes SQLite.prototype.createTable: the helper call is wrapped in
try/catch, the catch arm emitting the error on the 'error' event channel.
The first component is the outcome the awaiting caller sees, the second the
list of events emitted on the side channel. -/
def SQLite.createTable (txn : List String → Except String Unit) (name : String)
    (fields : List ITableColumn) (primaryKey : List String)
    (tableOptions : Option String) : Except String Unit × List String :=
  match NodeDB.createTable txn DBType.SQLITE name fields primaryKey tableOptions with
  | Except.ok _ => (Except.ok (), [])
  | Except.error e => (Except.ok (), [e])

/-- Transcribes MySQL.prototype.createTable, identical try/catch wrapping. -/
def MySQL.createTable (txn : List String → Except String Unit) (name : String)
    (fields : List ITableColumn) (primaryKey : List String)
    (tableOptions : Option String) : Except String Unit × List String :=
  match NodeDB.createTable txn DBType.MYSQL name fields primaryKey tableOptions with
  | Except.ok _ => (Except.ok (), [])
  | Except.error e => (Except.ok (), [e])

/-- The query-dispatch test of SQLite.prototype.query:
query.toLowerCase().startsWith('select'). -/
def isSelect (q : String) : Bool := jsStartsWith (jsToLower q) "select"

/-- A JavaScript value as far as the source inspects one: undefined, a
number, or a string. -/
inductive JsVal where
  | undef
  | num (n : Int)
  | str (s : String)
deriving DecidableEq

/-- JS truthiness of a JsVal: undefined, 0 and '' are falsy. -/
def jsValTruthy : JsVal → Bool
  | JsVal.undef => false
  | JsVal.num n => n != 0
  | JsVal.str s => !s.isEmpty

/-- A row object as the sqlite3 driver delivers it: named columns with
values; property access on a missing name yields undefined. -/
abbrev Row := List (String × JsVal)

/-- JS property access row[key]. -/
def rowGet (r : Row) (k : String) : JsVal :=
  match r.find? (fun p => p.1 == k) with
  | some p => p.2
  | none => JsVal.undef

/-- What getPragma evaluates to: rows[0][option], the per-row projection
rows.map(elem => elem[option]), or the raw rows. -/
inductive PragmaOutcome where
  | single (v : JsVal)
  | projected (vs : List JsVal)
  | raw (rows : List Row)
deriving DecidableEq

/-- Transcribes SQLite.prototype.getPragma as a function of the (count,
rows) pair its PRAGMA query resolves with.  The source lower-cases the
option, compares count === 1, and in both branches reads rows[0]; when rows
is empty that access is undefined[option], a thrown TypeError, modelled as
Except.error (). -/
def SQLite.getPragma (option : String) (count : Int) (rows : List Row) :
    Except Unit PragmaOutcome :=
  let opt := jsToLower option
  if count = 1 then
    match rows with
    | [] => Except.error ()
    | r :: _ => Except.ok (PragmaOutcome.single (rowGet r opt))
  else
    match rows with
    | [] => Except.error ()
    | r :: _ =>
      if jsValTruthy (rowGet r opt) then
        Except.ok (PragmaOutcome.projected (rows.map fun e => rowGet e opt))
      else
        Except.ok (PragmaOutcome.raw rows)

/-- The sqlite3 RunResult this-binding of a run callback: lastID and
changes. -/
structure RunHandle where
  lastID : Int
  changes : Int
deriving DecidableEq

/-- Transcribes the count computation of SQLite.prototype.run: insert takes
lastID, update or delete takes changes, anything else 0; run resolves with
an empty row list. -/
def SQLite.runResult (q : String) (h : RunHandle) : Int × List Row :=
  (if jsStartsWith (jsToLower q) "insert" then h.lastID
   else if jsStartsWith (jsToLower q) "update" || jsStartsWith (jsToLower q) "delete" then h.changes
   else 0, [])

/-- Transcribes SQLite.prototype.all: resolves [rows.length, rows]. -/
def SQLite.allResult (rows : List Row) : Int × List Row :=
  ((rows.length : Int), rows)

/-- The result SQLite.prototype.query ultimately resolves with, as a
function of the statement text and the driver outcome: select statements go
through all, everything else through run. -/
def SQLite.queryResult (q : String) (h : RunHandle) (rows : List Row) :
    Int × List Row :=
  if isSelect q then SQLite.allResult rows else SQLite.runResult q h

/-- The fields of the mysql driver's results value that
MySQL.prototype.query reads; none models an undefined property (a SELECT
result array has length but no OkPacket fields, an OkPacket has the
converse). -/
structure MySQLResults where
  changedRows : Option Int
  affectedRows : Option Int
  insertId : Option Int
  length : Option Int
deriving DecidableEq

/-- JS truthiness of an optional number: undefined and 0 are falsy. -/
def jsNumTruthy : Option Int → Bool
  | none => false
  | some n => n != 0

/-- JS short-circuit a || b over optional numbers. -/
def jsOr (a b : Option Int) : Option Int :=
  if jsNumTruthy a then a else b

/-- Transcribes the count computation of MySQL.prototype.query:
results.changedRows || results.affectedRows || results.insertId ||
results.length.  It never consults the statement text. -/
def MySQL.queryCount (r : MySQLResults) : Option Int :=
  jsOr r.changedRows (jsOr r.affectedRows (jsOr r.insertId r.length))

/-- An entry of the SQLite read (m_allQueue) or write (m_runQueue) queue:
the statement text plus the pending promise handle, modelled by a numeric
id. -/
structure IQueryQueueEntry where
  id : Nat
  query : String
deriving DecidableEq

/-- An entry of m_transactionQueue: the ordered statement texts plus the
pending promise handle. -/
structure ITransactionQueueEntry where
  id : Nat
  queries : List String
deriving DecidableEq

/-- The three scheduler queues of the SQLite backend. -/
structure SQLiteState where
  transactionQueue : List ITransactionQueueEntry
  allQueue : List IQueryQueueEntry
  runQueue : List IQueryQueueEntry
deriving DecidableEq

/-- Transcribes SQLite.prototype.query's submission path: select statements
are pushed onto m_allQueue, everything else onto m_runQueue; the caller
receives the pending handle immediately. -/
def submitQuery (s : SQLiteState) (e : IQueryQueueEntry) : SQLiteState :=
  if isSelect e.query then ⟨s.transactionQueue, s.allQueue ++ [e], s.runQueue⟩
  else ⟨s.transactionQueue, s.allQueue, s.runQueue ++ [e]⟩

/-- Transcribes SQLite.prototype.transaction's submission path: the entry is
pushed onto m_transactionQueue. -/
def submitTransaction (s : SQLiteState) (t : ITransactionQueueEntry) : SQLiteState :=
  ⟨s.transactionQueue ++ [t], s.allQueue, s.runQueue⟩

/-- Runs a transaction's statements in order, stopping at the first failure
and returning its error (the for-loop over await query(connection, ...)). -/
def runQueries (env : Env) : List String → Option String
  | [] => none
  | q :: qs =>
    match env q with
    | some e => some e
    | none => runQueries env qs

/-- The statements actually sent to the connection for a transaction body:
every statement up to and including the first failing one. -/
def attemptedQueries (env : Env) : List String → List String
  | [] => []
  | q :: qs =>
    match env q with
    | some _ => [q]
    | none => q :: attemptedQueries env qs

/-- A callback event observed by a submitted operation's handle, or the
shutdown milestones of the trace.  orphaned is trace bookkeeping with no
source-side callback: it records that an aborted drain shifted the handle
off its queue and the callback was never invoked (the handle can never
settle afterwards). -/
inductive Event where
  | submitted (id : Nat)
  | resolved (id : Nat)
  | rejected (id : Nat) (e : String)
  | orphaned (id : Nat)
  | closed
deriving DecidableEq

/-- The outcome of processing one queued transaction: callback(undefined),
callback(error), or — when the catch arm's own ROLLBACK rejects — an
uncaught rejection escaping the tick listener, so the callback never runs
and the rest of the drain is skipped. -/
inductive TxOutcome where
  | resolved
  | rejected (e : String)
  | aborted (e : String)
deriving DecidableEq

/-- The first rejection raised inside the tick handler's try block: BEGIN
TRANSACTION, then the body statements in order, then COMMIT, all sent
through connection.run and each able to reject. -/
def tryBlockError (env : Env) (queries : List String) : Option String :=
  match env "BEGIN TRANSACTION" with
  | some e => some e
  | none =>
    match runQueries env queries with
    | some e => some e
    | none => env "COMMIT"

/-- Processing of one queued transaction inside the tick handler (try:
beginTransaction, the statements in order, commit, callback(undefined);
catch e: rollback, callback(e)).  All four statement kinds go through
connection.run and can reject.  The catch arm's await rollback is
unguarded: when ROLLBACK rejects, that rejection escapes the async tick
listener, so callback(e) is never reached — TxOutcome.aborted (the value
carried is the try-block error; the escaping rejection itself is the
ROLLBACK's own error, which nothing observes).  Returns the statements
sent on the connection and the outcome. -/
def execTransaction (env : Env) (t : ITransactionQueueEntry) :
    List String × TxOutcome :=
  match env "BEGIN TRANSACTION" with
  | some e =>
    (["BEGIN TRANSACTION", "ROLLBACK"],
     match env "ROLLBACK" with
     | none => TxOutcome.rejected e
     | some _ => TxOutcome.aborted e)
  | none =>
    match runQueries env t.queries with
    | some e =>
      ("BEGIN TRANSACTION" :: (attemptedQueries env t.queries ++ ["ROLLBACK"]),
       match env "ROLLBACK" with
       | none => TxOutcome.rejected e
       | some _ => TxOutcome.aborted e)
    | none =>
      match env "COMMIT" with
      | some e =>
        ("BEGIN TRANSACTION" :: (t.queries ++ ["COMMIT", "ROLLBACK"]),
         match env "ROLLBACK" with
         | none => TxOutcome.rejected e
         | some _ => TxOutcome.aborted e)
      | none =>
        ("BEGIN TRANSACTION" :: (t.queries ++ ["COMMIT"]), TxOutcome.resolved)

/-- The callback event a drained transaction's handle receives whenever
the catch-path ROLLBACK succeeds (or is never needed): resolved on
try-block success, otherwise rejected with the first try-block error. -/
def txEvent (env : Env) (t : ITransactionQueueEntry) : Event :=
  match tryBlockError env t.queries with
  | none => Event.resolved t.id
  | some e => Event.rejected t.id e

/-- Processing of one queued read or write inside the tick handler: the
statement is executed inside that entry's own try/catch, so the entry's
callback receives the result or the error. -/
def execQuery (env : Env) (e : IQueryQueueEntry) : Event :=
  match env e.query with
  | none => Event.resolved e.id
  | some err => Event.rejected e.id err

/-- The while-shift loop over m_transactionQueue: entries are shifted and
processed oldest-first; an aborted entry (its ROLLBACK rejected) stops the
loop with the remaining entries still queued, its own handle orphaned, and
the abort propagating to the rest of the listener.  Returns (remaining
transaction queue, callback events in order, aborted flag). -/
def drainTransactionQueue (env : Env) :
    List ITransactionQueueEntry → List ITransactionQueueEntry × List Event × Bool
  | [] => ([], [], false)
  | t :: rest =>
    match (execTransaction env t).2 with
    | TxOutcome.resolved =>
      let r := drainTransactionQueue env rest
      (r.1, Event.resolved t.id :: r.2.1, r.2.2)
    | TxOutcome.rejected e =>
      let r := drainTransactionQueue env rest
      (r.1, Event.rejected t.id e :: r.2.1, r.2.2)
    | TxOutcome.aborted _ => (rest, [Event.orphaned t.id], true)

/-- The while-shift loop over m_allQueue or m_runQueue. -/
def drainQueryQueue (env : Env) : List IQueryQueueEntry → List Event
  | [] => []
  | e :: rest => execQuery env e :: drainQueryQueue env rest

/-- One tick of the Metronome handler: pause the timer, drain
m_transactionQueue, then m_allQueue, then m_runQueue, each oldest-first,
then unpause.  When the transaction drain aborts, everything after it in
the listener is skipped: the read and write queues are not drained and the
unpausing assignment (m_timer.paused = false) never runs.  Returns the new
queue state, the callback events in order, and whether the listener died
leaving the timer paused. -/
def tickDrain (env : Env) (s : SQLiteState) : SQLiteState × List Event × Bool :=
  let td := drainTransactionQueue env s.transactionQueue
  if td.2.2 then
    (⟨td.1, s.allQueue, s.runQueue⟩, td.2.1, true)
  else
    (⟨[], [], []⟩,
     td.2.1 ++ drainQueryQueue env s.allQueue ++ drainQueryQueue env s.runQueue,
     false)

/-- One interleaving step of the SQLite backend's public interface: a query
or transaction submission, a timer tick, or one polling iteration of
close()'s wait loop. -/
inductive Step where
  | submitQ (id : Nat) (q : String)
  | submitT (id : Nat) (qs : List String)
  | tick
  | closeAttempt
deriving DecidableEq

/-- The backend's scheduler state: the three queues plus whether an
aborted drain killed the listener before m_timer.paused = false could run,
leaving the timer paused so that no later tick ever fires. -/
structure BackendState where
  queues : SQLiteState
  timerBroken : Bool
deriving DecidableEq

/-- The freshly constructed backend: empty queues, live timer. -/
def initialBackend : BackendState := ⟨⟨[], [], []⟩, false⟩

/-- Applies one step to the backend state, emitting the trace events it
produces.  Submissions always enqueue; a tick fires only while the timer
is alive; closeAttempt transcribes close()'s loop condition: while any of
the three queues is non-empty it waits (no event), and once all are empty
the underlying connection is closed. -/
def applyStep (env : Env) (s : BackendState) : Step → BackendState × List Event
  | Step.submitQ id q =>
    (⟨submitQuery s.queues ⟨id, q⟩, s.timerBroken⟩, [Event.submitted id])
  | Step.submitT id qs =>
    (⟨submitTransaction s.queues ⟨id, qs⟩, s.timerBroken⟩, [Event.submitted id])
  | Step.tick =>
    if s.timerBroken then (s, [])
    else
      (⟨(tickDrain env s.queues).1, (tickDrain env s.queues).2.2⟩,
       (tickDrain env s.queues).2.1)
  | Step.closeAttempt =>
    if s.queues.transactionQueue.length != 0 || s.queues.runQueue.length != 0 ||
        s.queues.allQueue.length != 0 then
      (s, [])
    else
      (s, [Event.closed])

/-- Runs a list of steps from a state, concatenating the emitted events. -/
def runSteps (env : Env) (s : BackendState) : List Step → List Event
  | [] => []
  | st :: rest =>
    (applyStep env s st).2 ++ runSteps env (applyStep env s st).1 rest

/-- The handles currently sitting in some queue. -/
def queuedIds (s : SQLiteState) : List Nat :=
  s.transactionQueue.map ITransactionQueueEntry.id ++
    s.allQueue.map IQueryQueueEntry.id ++
    s.runQueue.map IQueryQueueEntry.id

/-- The handle id has settled (its promise resolved or rejected) somewhere
in the given event list. -/
def settledIn (evs : List Event) (id : Nat) : Prop :=
  Event.resolved id ∈ evs ∨ ∃ e, Event.rejected id e ∈ evs

theorem drainQueryQueue_eq_map (env : Env) (qs : List IQueryQueueEntry) :
    drainQueryQueue env qs = qs.map (execQuery env) := by
  induction qs with
  | nil => rfl
  | cons e rest ih => simp [drainQueryQueue, ih]

theorem execTransaction_outcome_rollback_ok (env : Env)
    (t : ITransactionQueueEntry) (hrb : env "ROLLBACK" = none) :
    (execTransaction env t).2 =
      (match tryBlockError env t.queries with
       | none => TxOutcome.resolved
       | some e => TxOutcome.rejected e) := by
  cases hb : env "BEGIN TRANSACTION" with
  | some eb => simp [execTransaction, tryBlockError, hb, hrb]
  | none =>
    cases hq : runQueries env t.queries with
    | some eq' => simp [execTransaction, tryBlockError, hb, hq, hrb]
    | none =>
      cases hc : env "COMMIT" with
      | some ec => simp [execTransaction, tryBlockError, hb, hq, hc, hrb]
      | none => simp [execTransaction, tryBlockError, hb, hq, hc]

theorem drainTransactionQueue_rollback_ok (env : Env)
    (ts : List ITransactionQueueEntry) (hrb : env "ROLLBACK" = none) :
    drainTransactionQueue env ts = ([], ts.map (txEvent env), false) := by
  induction ts with
  | nil => rfl
  | cons t rest ih =>
    rw [drainTransactionQueue]
    have ho := execTransaction_outcome_rollback_ok env t hrb
    cases hq : tryBlockError env t.queries with
    | none =>
      rw [hq] at ho
      rw [ho, ih]
      simp [txEvent, hq]
    | some e =>
      rw [hq] at ho
      rw [ho, ih]
      simp [txEvent, hq]

theorem drainTransactionQueue_no_abort_remaining (env : Env)
    (ts : List ITransactionQueueEntry)
    (h : (drainTransactionQueue env ts).2.2 = false) :
    (drainTransactionQueue env ts).1 = [] := by
  induction ts with
  | nil => rfl
  | cons t rest ih =>
    rw [drainTransactionQueue] at h ⊢
    cases ho : (execTransaction env t).2 with
    | resolved =>
      rw [ho] at h
      exact ih h
    | rejected e =>
      rw [ho] at h
      exact ih h
    | aborted e =>
      rw [ho] at h
      simp at h

theorem getLast?_cons_append_singleton (a : String) (l : List String)
    (x : String) : (a :: (l ++ [x])).getLast? = some x := by
  rw [← List.cons_append]
  exact List.getLast?_concat _

theorem execTransaction_log_getLast (env : Env) (t : ITransactionQueueEntry)
    (e : String) (hfail : tryBlockError env t.queries = some e) :
    ((execTransaction env t).1).getLast? = some "ROLLBACK" := by
  cases hb : env "BEGIN TRANSACTION" with
  | some eb =>
    cases hr : env "ROLLBACK" with
    | none => simp [execTransaction, hb, hr]
    | some er => simp [execTransaction, hb, hr]
  | none =>
    cases hq : runQueries env t.queries with
    | some eq' =>
      cases hr : env "ROLLBACK" with
      | none =>
        simp only [execTransaction, hb, hq, hr]
        exact getLast?_cons_append_singleton _ _ _
      | some er =>
        simp only [execTransaction, hb, hq, hr]
        exact getLast?_cons_append_singleton _ _ _
    | none =>
      cases hc : env "COMMIT" with
      | some ec =>
        have hlog : (execTransaction env t).1
            = "BEGIN TRANSACTION" :: (t.queries ++ ["COMMIT", "ROLLBACK"]) := by
          cases hr : env "ROLLBACK" with
          | none => simp [execTransaction, hb, hq, hc, hr]
          | some er => simp [execTransaction, hb, hq, hc, hr]
        have hassoc : t.queries ++ ["COMMIT", "ROLLBACK"]
            = (t.queries ++ ["COMMIT"]) ++ ["ROLLBACK"] := by simp
        rw [hlog, hassoc]
        exact getLast?_cons_append_singleton _ _ _
      | none =>
        rw [tryBlockError, hb, hq, hc] at hfail
        exact absurd hfail (by simp)

theorem execQuery_event (env : Env) (e : IQueryQueueEntry) :
    execQuery env e = Event.resolved e.id ∨
      ∃ err, execQuery env e = Event.rejected e.id err := by
  cases he : env e.query with
  | none => exact Or.inl (by simp [execQuery, he])
  | some err => exact Or.inr ⟨err, by simp [execQuery, he]⟩

theorem settledIn_mono (u w : List Event) (id : Nat) (h : settledIn u id) :
    settledIn (w ++ u) id := by
  rcases h with h | ⟨e, h⟩
  · exact Or.inl (List.mem_append_right w h)
  · exact Or.inr ⟨e, List.mem_append_right w h⟩

theorem settledIn_mono_left (u w : List Event) (id : Nat) (h : settledIn u id) :
    settledIn (u ++ w) id := by
  rcases h with h | ⟨e, h⟩
  · exact Or.inl (List.mem_append_left w h)
  · exact Or.inr ⟨e, List.mem_append_left w h⟩

theorem settledIn_cons (x : Event) (u : List Event) (id : Nat)
    (h : settledIn u id) : settledIn (x :: u) id := by
  rcases h with h | ⟨e, h⟩
  · exact Or.inl (List.mem_cons_of_mem x h)
  · exact Or.inr ⟨e, List.mem_cons_of_mem x h⟩

theorem drainTransactionQueue_settles_or_keeps (env : Env)
    (ts : List ITransactionQueueEntry) (id : Nat)
    (h : id ∈ ts.map ITransactionQueueEntry.id) :
    settledIn (drainTransactionQueue env ts).2.1 id
      ∨ Event.orphaned id ∈ (drainTransactionQueue env ts).2.1
      ∨ id ∈ (drainTransactionQueue env ts).1.map ITransactionQueueEntry.id := by
  induction ts with
  | nil => simp at h
  | cons t rest ih =>
    simp only [List.map_cons, List.mem_cons] at h
    rw [drainTransactionQueue]
    cases ho : (execTransaction env t).2 with
    | resolved =>
      rcases h with h | h
      · exact Or.inl (Or.inl (by rw [h]; exact List.mem_cons_self _ _))
      · rcases ih h with hs | ho' | hk
        · exact Or.inl (settledIn_cons _ _ _ hs)
        · exact Or.inr (Or.inl (List.mem_cons_of_mem _ ho'))
        · exact Or.inr (Or.inr hk)
    | rejected e =>
      rcases h with h | h
      · exact Or.inl (Or.inr ⟨e, by rw [h]; exact List.mem_cons_self _ _⟩)
      · rcases ih h with hs | ho' | hk
        · exact Or.inl (settledIn_cons _ _ _ hs)
        · exact Or.inr (Or.inl (List.mem_cons_of_mem _ ho'))
        · exact Or.inr (Or.inr hk)
    | aborted e =>
      rcases h with h | h
      · exact Or.inr (Or.inl (by rw [h]; exact List.mem_cons_self _ _))
      · exact Or.inr (Or.inr h)

theorem drainQueryQueue_settles (env : Env) (qs : List IQueryQueueEntry)
    (id : Nat) (h : id ∈ qs.map IQueryQueueEntry.id) :
    settledIn (drainQueryQueue env qs) id := by
  induction qs with
  | nil => simp at h
  | cons e rest ih =>
    simp only [List.map_cons, List.mem_cons] at h
    rw [drainQueryQueue]
    rcases h with h | h
    · subst h
      rcases execQuery_event env e with h1 | ⟨err, h1⟩
      · exact Or.inl (by rw [h1]; exact List.mem_cons_self _ _)
      · exact Or.inr ⟨err, by rw [h1]; exact List.mem_cons_self _ _⟩
    · exact settledIn_cons _ _ _ (ih h)

theorem tick_settles_or_keeps (env : Env) (s : SQLiteState) (id : Nat)
    (h : id ∈ queuedIds s) :
    settledIn (tickDrain env s).2.1 id
      ∨ Event.orphaned id ∈ (tickDrain env s).2.1
      ∨ id ∈ queuedIds (tickDrain env s).1 := by
  simp only [queuedIds, List.mem_append] at h
  rw [tickDrain]
  cases hab : (drainTransactionQueue env s.transactionQueue).2.2 with
  | true =>
    simp only [hab, if_true]
    rcases h with (h | h) | h
    · rcases drainTransactionQueue_settles_or_keeps env s.transactionQueue id h
        with hs | ho' | hk
      · exact Or.inl hs
      · exact Or.inr (Or.inl ho')
      · refine Or.inr (Or.inr ?_)
        simp only [queuedIds, List.mem_append]
        exact Or.inl (Or.inl hk)
    · refine Or.inr (Or.inr ?_)
      simp only [queuedIds, List.mem_append]
      exact Or.inl (Or.inr h)
    · refine Or.inr (Or.inr ?_)
      simp only [queuedIds, List.mem_append]
      exact Or.inr h
  | false =>
    simp only [hab, Bool.false_eq_true, if_false]
    rcases h with (h | h) | h
    · rcases drainTransactionQueue_settles_or_keeps env s.transactionQueue id h
        with hs | ho' | hk
      · exact Or.inl (settledIn_mono_left _ _ _ (settledIn_mono_left _ _ _ hs))
      · exact Or.inr (Or.inl
          (List.mem_append_left _ (List.mem_append_left _ ho')))
      · rw [drainTransactionQueue_no_abort_remaining env s.transactionQueue hab]
          at hk
        simp at hk
    · exact Or.inl (settledIn_mono_left _ _ _
        (settledIn_mono _ _ _ (drainQueryQueue_settles env _ id h)))
    · exact Or.inl (settledIn_mono _ _ _ (drainQueryQueue_settles env _ id h))

theorem not_closed_in_drainTransactionQueue (env : Env)
    (ts : List ITransactionQueueEntry) :
    Event.closed ∉ (drainTransactionQueue env ts).2.1 := by
  induction ts with
  | nil => simp [drainTransactionQueue]
  | cons t rest ih =>
    rw [drainTransactionQueue]
    cases ho : (execTransaction env t).2 with
    | resolved =>
      intro hmem
      rcases List.mem_cons.mp hmem with h | h
      · exact absurd h (by simp)
      · exact ih h
    | rejected e =>
      intro hmem
      rcases List.mem_cons.mp hmem with h | h
      · exact absurd h (by simp)
      · exact ih h
    | aborted e => simp

theorem not_closed_in_drainQueryQueue (env : Env) (qs : List IQueryQueueEntry) :
    Event.closed ∉ drainQueryQueue env qs := by
  induction qs with
  | nil => simp [drainQueryQueue]
  | cons e rest ih =>
    rw [drainQueryQueue]
    intro hmem
    rcases List.mem_cons.mp hmem with h | h
    · rcases execQuery_event env e with h1 | ⟨err, h1⟩ <;> simp [h1] at h
    · exact ih h

theorem not_closed_in_tick (env : Env) (s : SQLiteState) :
    Event.closed ∉ (tickDrain env s).2.1 := by
  rw [tickDrain]
  cases hab : (drainTransactionQueue env s.transactionQueue).2.2 with
  | true =>
    simp only [hab, if_true]
    exact not_closed_in_drainTransactionQueue env _
  | false =>
    simp only [hab, Bool.false_eq_true, if_false, List.mem_append]
    rintro ((h | h) | h)
    · exact not_closed_in_drainTransactionQueue env _ h
    · exact not_closed_in_drainQueryQueue env _ h
    · exact not_closed_in_drainQueryQueue env _ h

theorem not_submitted_in_drainTransactionQueue (env : Env)
    (ts : List ITransactionQueueEntry) (id : Nat) :
    Event.submitted id ∉ (drainTransactionQueue env ts).2.1 := by
  induction ts with
  | nil => simp [drainTransactionQueue]
  | cons t rest ih =>
    rw [drainTransactionQueue]
    cases ho : (execTransaction env t).2 with
    | resolved =>
      intro hmem
      rcases List.mem_cons.mp hmem with h | h
      · exact absurd h (by simp)
      · exact ih h
    | rejected e =>
      intro hmem
      rcases List.mem_cons.mp hmem with h | h
      · exact absurd h (by simp)
      · exact ih h
    | aborted e => simp

theorem not_submitted_in_drainQueryQueue (env : Env) (qs : List IQueryQueueEntry)
    (id : Nat) : Event.submitted id ∉ drainQueryQueue env qs := by
  induction qs with
  | nil => simp [drainQueryQueue]
  | cons e rest ih =>
    rw [drainQueryQueue]
    intro hmem
    rcases List.mem_cons.mp hmem with h | h
    · rcases execQuery_event env e with h1 | ⟨err, h1⟩ <;> simp [h1] at h
    · exact ih h

theorem not_submitted_in_tick (env : Env) (s : SQLiteState) (id : Nat) :
    Event.submitted id ∉ (tickDrain env s).2.1 := by
  rw [tickDrain]
  cases hab : (drainTransactionQueue env s.transactionQueue).2.2 with
  | true =>
    simp only [hab, if_true]
    exact not_submitted_in_drainTransactionQueue env _ id
  | false =>
    simp only [hab, Bool.false_eq_true, if_false, List.mem_append]
    rintro ((h | h) | h)
    · exact not_submitted_in_drainTransactionQueue env _ id h
    · exact not_submitted_in_drainQueryQueue env _ id h
    · exact not_submitted_in_drainQueryQueue env _ id h

theorem append_split_before_closed (a b u v : List Event)
    (h : a ++ b = u ++ Event.closed :: v) (hc : Event.closed ∉ a) :
    ∃ w, u = a ++ w ∧ b = w ++ Event.closed :: v := by
  induction a generalizing u with
  | nil => exact ⟨u, (List.nil_append u).symm, by simpa using h⟩
  | cons x a ih =>
    cases u with
    | nil =>
      rw [List.cons_append, List.nil_append] at h
      injection h with h1 h2
      exact absurd (h1 ▸ List.mem_cons_self x a) hc
    | cons y u' =>
      rw [List.cons_append, List.cons_append] at h
      injection h with h1 h2
      obtain ⟨w, hu, hb⟩ := ih u' h2 (fun hmem => hc (List.mem_cons_of_mem x hmem))
      exact ⟨w, by rw [h1, hu, List.cons_append], hb⟩

theorem mem_queuedIds_submitQuery (s : SQLiteState) (e : IQueryQueueEntry)
    (id : Nat) (h : id ∈ queuedIds s) : id ∈ queuedIds (submitQuery s e) := by
  simp only [queuedIds, List.mem_append] at h
  rw [submitQuery]
  by_cases hsel : isSelect e.query = true
  · rw [if_pos hsel]
    simp only [queuedIds, List.map_append]
    rcases h with (h | h) | h
    · exact List.mem_append_left _ (List.mem_append_left _ h)
    · exact List.mem_append_left _ (List.mem_append_right _ (List.mem_append_left _ h))
    · exact List.mem_append_right _ h
  · rw [if_neg hsel]
    simp only [queuedIds, List.map_append]
    rcases h with (h | h) | h
    · exact List.mem_append_left _ (List.mem_append_left _ h)
    · exact List.mem_append_left _ (List.mem_append_right _ h)
    · exact List.mem_append_right _ (List.mem_append_left _ h)

theorem self_mem_queuedIds_submitQuery (s : SQLiteState) (e : IQueryQueueEntry) :
    e.id ∈ queuedIds (submitQuery s e) := by
  rw [submitQuery]
  by_cases hsel : isSelect e.query = true
  · rw [if_pos hsel]
    simp only [queuedIds, List.map_append]
    exact List.mem_append_left _
      (List.mem_append_right _ (List.mem_append_right _ (by simp)))
  · rw [if_neg hsel]
    simp only [queuedIds, List.map_append]
    exact List.mem_append_right _ (List.mem_append_right _ (by simp))

theorem mem_queuedIds_submitTransaction (s : SQLiteState)
    (t : ITransactionQueueEntry) (id : Nat) (h : id ∈ queuedIds s) :
    id ∈ queuedIds (submitTransaction s t) := by
  simp only [queuedIds, List.mem_append] at h
  rw [submitTransaction]
  simp only [queuedIds, List.map_append]
  rcases h with (h | h) | h
  · exact List.mem_append_left _ (List.mem_append_left _ (List.mem_append_left _ h))
  · exact List.mem_append_left _ (List.mem_append_right _ h)
  · exact List.mem_append_right _ h

theorem self_mem_queuedIds_submitTransaction (s : SQLiteState)
    (t : ITransactionQueueEntry) : t.id ∈ queuedIds (submitTransaction s t) := by
  rw [submitTransaction]
  simp only [queuedIds, List.map_append]
  exact List.mem_append_left _
    (List.mem_append_left _ (List.mem_append_right _ (by simp)))

theorem queuedIds_nil_of_idle (s : SQLiteState)
    (h : (s.transactionQueue.length != 0 || s.runQueue.length != 0 ||
        s.allQueue.length != 0) = false) : queuedIds s = [] := by
  have ht : s.transactionQueue = [] := by
    cases hx : s.transactionQueue with
    | nil => rfl
    | cons a l => rw [hx] at h; simp at h
  have hr : s.runQueue = [] := by
    cases hx : s.runQueue with
    | nil => rfl
    | cons a l => rw [hx] at h; simp at h
  have ha : s.allQueue = [] := by
    cases hx : s.allQueue with
    | nil => rfl
    | cons a l => rw [hx] at h; simp at h
  simp [queuedIds, ht, hr, ha]

theorem close_drains_first (env : Env) (steps : List Step) :
    ∀ (s : BackendState) (u v : List Event) (id : Nat),
      runSteps env s steps = u ++ Event.closed :: v →
      (id ∈ queuedIds s.queues ∨ Event.submitted id ∈ u) →
      settledIn u id ∨ Event.orphaned id ∈ u := by
  induction steps with
  | nil =>
    intro s u v id h _
    rw [runSteps] at h
    exact absurd h.symm (List.append_ne_nil_of_right_ne_nil u (List.cons_ne_nil _ _))
  | cons st rest ih =>
    intro s u v id h hid
    rw [runSteps] at h
    cases st with
    | submitQ i q =>
      simp only [applyStep] at h
      obtain ⟨w, hu, hb⟩ := append_split_before_closed _ _ _ _ h (by simp)
      subst hu
      have hid' : id ∈ queuedIds (submitQuery s.queues ⟨i, q⟩)
          ∨ Event.submitted id ∈ w := by
        rcases hid with hid | hid
        · exact Or.inl (mem_queuedIds_submitQuery s.queues ⟨i, q⟩ id hid)
        · have hid2 : Event.submitted id ∈ Event.submitted i :: w := by
            rw [List.singleton_append] at hid; exact hid
          rcases List.mem_cons.mp hid2 with hh | hh
          · injection hh with hh
            exact Or.inl (by rw [hh]; exact self_mem_queuedIds_submitQuery s.queues ⟨i, q⟩)
          · exact Or.inr hh
      rcases ih ⟨submitQuery s.queues ⟨i, q⟩, s.timerBroken⟩ w v id hb hid' with hs | ho'
      · refine Or.inl ?_
        rw [List.singleton_append]
        exact settledIn_cons _ _ _ hs
      · refine Or.inr ?_
        rw [List.singleton_append]
        exact List.mem_cons_of_mem _ ho'
    | submitT i qs =>
      simp only [applyStep] at h
      obtain ⟨w, hu, hb⟩ := append_split_before_closed _ _ _ _ h (by simp)
      subst hu
      have hid' : id ∈ queuedIds (submitTransaction s.queues ⟨i, qs⟩)
          ∨ Event.submitted id ∈ w := by
        rcases hid with hid | hid
        · exact Or.inl (mem_queuedIds_submitTransaction s.queues ⟨i, qs⟩ id hid)
        · have hid2 : Event.submitted id ∈ Event.submitted i :: w := by
            rw [List.singleton_append] at hid; exact hid
          rcases List.mem_cons.mp hid2 with hh | hh
          · injection hh with hh
            exact Or.inl (by rw [hh]; exact self_mem_queuedIds_submitTransaction s.queues ⟨i, qs⟩)
          · exact Or.inr hh
      rcases ih ⟨submitTransaction s.queues ⟨i, qs⟩, s.timerBroken⟩ w v id hb hid' with hs | ho'
      · refine Or.inl ?_
        rw [List.singleton_append]
        exact settledIn_cons _ _ _ hs
      · refine Or.inr ?_
        rw [List.singleton_append]
        exact List.mem_cons_of_mem _ ho'
    | tick =>
      cases hbrk : s.timerBroken with
      | true =>
        simp only [applyStep, hbrk, if_true, List.nil_append] at h
        exact ih s u v id h hid
      | false =>
        simp only [applyStep, hbrk, Bool.false_eq_true, if_false] at h
        obtain ⟨w, hu, hb⟩ :=
          append_split_before_closed _ _ _ _ h (not_closed_in_tick env s.queues)
        subst hu
        rcases hid with hid | hid
        · rcases tick_settles_or_keeps env s.queues id hid with hs | ho' | hk
          · exact Or.inl (settledIn_mono_left _ _ _ hs)
          · exact Or.inr (List.mem_append_left _ ho')
          · rcases ih ⟨(tickDrain env s.queues).1, (tickDrain env s.queues).2.2⟩
                w v id hb (Or.inl hk) with hs | ho'
            · exact Or.inl (settledIn_mono _ _ _ hs)
            · exact Or.inr (List.mem_append_right _ ho')
        · rcases List.mem_append.mp hid with hh | hh
          · exact absurd hh (not_submitted_in_tick env s.queues id)
          · rcases ih ⟨(tickDrain env s.queues).1, (tickDrain env s.queues).2.2⟩
                w v id hb (Or.inr hh) with hs | ho'
            · exact Or.inl (settledIn_mono _ _ _ hs)
            · exact Or.inr (List.mem_append_right _ ho')
    | closeAttempt =>
      simp only [applyStep] at h
      by_cases hcond : (s.queues.transactionQueue.length != 0 ||
          s.queues.runQueue.length != 0 || s.queues.allQueue.length != 0) = true
      · rw [if_pos hcond, List.nil_append] at h
        exact ih s u v id h hid
      · rw [if_neg hcond] at h
        have hfalse : (s.queues.transactionQueue.length != 0 ||
            s.queues.runQueue.length != 0 || s.queues.allQueue.length != 0) = false := by
          cases hx : (s.queues.transactionQueue.length != 0 ||
              s.queues.runQueue.length != 0 || s.queues.allQueue.length != 0)
          · rfl
          · exact absurd hx hcond
        have hq : queuedIds s.queues = [] := queuedIds_nil_of_idle s.queues hfalse
        cases u with
        | nil =>
          rcases hid with hid | hid
          · rw [hq] at hid; simp at hid
          · simp at hid
        | cons y u' =>
          rw [List.singleton_append, List.cons_append] at h
          injection h with h1 h2
          have hid' : id ∈ queuedIds s.queues ∨ Event.submitted id ∈ u' := by
            rcases hid with hid | hid
            · exact Or.inl hid
            · rcases List.mem_cons.mp hid with hh | hh
              · rw [← h1] at hh; simp at hh
              · exact Or.inr hh
          rcases ih s u' v id h2 hid' with hs | ho'
          · exact Or.inl (settledIn_cons y u' id hs)
          · exact Or.inr (List.mem_cons_of_mem y ho')

/-- Claim C1 counterexample: a drain cycle that does not execute the
queued read and write.  The queued transaction's statement fails and its
catch-path ROLLBACK also fails (as after SQLite's automatic rollback:
"cannot rollback - no transaction is active"), so the listener dies: the
transaction's handle is orphaned without resolving, the read and the write
receive no events and stay queued, and the timer stays paused. -/
theorem claim_C1_abort_counterexample :
    (tickDrain
        (fun q => if q = "bad" then some "boom"
          else if q = "ROLLBACK" then some "cannot rollback - no transaction is active"
          else none)
        ⟨[⟨1, ["bad"]⟩], [⟨2, "select 1"⟩], [⟨3, "insert into t (a) (1)"⟩]⟩).2.1
        = [Event.orphaned 1]
      ∧ (tickDrain
          (fun q => if q = "bad" then some "boom"
            else if q = "ROLLBACK" then some "cannot rollback - no transaction is active"
            else none)
          ⟨[⟨1, ["bad"]⟩], [⟨2, "select 1"⟩], [⟨3, "insert into t (a) (1)"⟩]⟩).1
        = ⟨[], [⟨2, "select 1"⟩], [⟨3, "insert into t (a) (1)"⟩]⟩
      ∧ (tickDrain
          (fun q => if q = "bad" then some "boom"
            else if q = "ROLLBACK" then some "cannot rollback - no transaction is active"
            else none)
          ⟨[⟨1, ["bad"]⟩], [⟨2, "select 1"⟩], [⟨3, "insert into t (a) (1)"⟩]⟩).2.2
        = true := by
  refine ⟨by decide, by decide, by decide⟩

/-- Claim C1 amended: the drain order transactions, then reads, then
writes, FIFO within each class, holds whenever every ROLLBACK the drain
issues succeeds; a rollback failure aborts the cycle with the remaining
entries still queued.  The claim's R1, R2, W1 instance involves no queued
transaction, so it holds exactly as stated. -/
theorem claim_C1_scheduler_fifo (env : Env) (r1 r2 w1 : String)
    (id1 id2 id3 : Nat)
    (h1 : isSelect r1 = true) (h2 : isSelect r2 = true) (h3 : isSelect w1 = false)
    (h4 : env r1 = none) (h5 : env r2 = none) (h6 : env w1 = none) :
    (tickDrain env (submitQuery (submitQuery (submitQuery ⟨[], [], []⟩
          ⟨id1, r1⟩) ⟨id2, r2⟩) ⟨id3, w1⟩)).2.1
        = [Event.resolved id1, Event.resolved id2, Event.resolved id3]
      ∧ ∀ s : SQLiteState, env "ROLLBACK" = none →
          tickDrain env s
            = (⟨[], [], []⟩,
               (s.transactionQueue.map (txEvent env)
                   ++ s.allQueue.map (execQuery env))
                 ++ s.runQueue.map (execQuery env),
               false) := by
  constructor
  · simp [submitQuery, h1, h2, h3, tickDrain, drainTransactionQueue,
      drainQueryQueue, execQuery, h4, h5, h6]
  · intro s hrb
    rw [tickDrain, drainTransactionQueue_rollback_ok env s.transactionQueue hrb]
    simp [drainQueryQueue_eq_map, List.append_assoc]

/-- Witness for C1's amended claim at reads "select 1", "select 2" and
write "insert into t (a) (1)" with handles 1, 2, 3 and a driver that
accepts every statement. -/
theorem claim_C1_scheduler_fifo_witness :
    (tickDrain (fun _ => none) (submitQuery (submitQuery (submitQuery ⟨[], [], []⟩
          ⟨1, "select 1"⟩) ⟨2, "select 2"⟩) ⟨3, "insert into t (a) (1)"⟩)).2.1
      = [Event.resolved 1, Event.resolved 2, Event.resolved 3] :=
  (claim_C1_scheduler_fifo (fun _ => none) "select 1" "select 2"
    "insert into t (a) (1)" 1 2 3 (by decide) (by decide) (by decide)
    rfl rfl rfl).1

/-- Claim C2 counterexample: a submitted transaction can be lost across
the shutdown boundary.  Its statement fails and the catch-path ROLLBACK
fails too, so the entry is shifted off the queue with its callback never
invoked; all queues are then empty, close()'s polling loop exits and the
connection closes while handle 1 never settled. -/
theorem claim_C2_orphan_counterexample :
    runSteps
        (fun q => if q = "bad" then some "boom"
          else if q = "ROLLBACK" then some "cannot rollback - no transaction is active"
          else none)
        initialBackend
        [Step.submitT 1 ["bad"], Step.tick, Step.closeAttempt]
        = [Event.submitted 1, Event.orphaned 1, Event.closed]
      ∧ ¬ settledIn [Event.submitted 1, Event.orphaned 1] 1 := by
  refine ⟨by decide, ?_⟩
  simp [settledIn]

/-- Claim C2 amended: close() never closes while any queue is non-empty,
and every operation submitted before the connection-closed event has
either settled or been orphaned by a rollback-failure abort (its entry
shifted off the queue with the callback never invoked); absent such an
abort no submitted operation is lost. -/
theorem claim_C2_close_after_drain (env : Env) (steps : List Step)
    (u v : List Event) (id : Nat)
    (h : runSteps env initialBackend steps = u ++ Event.closed :: v)
    (hid : Event.submitted id ∈ u) :
    settledIn u id ∨ Event.orphaned id ∈ u :=
  close_drains_first env steps initialBackend u v id h (Or.inr hid)

/-- Witness for C2's amended claim: transaction T1 (handle 1), then read
R1 (handle 2), then close, with every statement and rollback succeeding;
both handles settle strictly before the closed event. -/
theorem claim_C2_close_after_drain_witness :
    (settledIn [Event.submitted 1, Event.submitted 2,
        Event.resolved 1, Event.resolved 2] 1
      ∨ Event.orphaned 1 ∈ [Event.submitted 1, Event.submitted 2,
          Event.resolved 1, Event.resolved 2])
      ∧ (settledIn [Event.submitted 1, Event.submitted 2,
          Event.resolved 1, Event.resolved 2] 2
        ∨ Event.orphaned 2 ∈ [Event.submitted 1, Event.submitted 2,
            Event.resolved 1, Event.resolved 2]) :=
  ⟨claim_C2_close_after_drain (fun _ => none)
      [Step.submitT 1 ["UPDATE x SET y = 1"], Step.submitQ 2 "select 1",
        Step.tick, Step.closeAttempt]
      [Event.submitted 1, Event.submitted 2, Event.resolved 1, Event.resolved 2]
      [] 1 (by decide) (by decide),
    claim_C2_close_after_drain (fun _ => none)
      [Step.submitT 1 ["UPDATE x SET y = 1"], Step.submitQ 2 "select 1",
        Step.tick, Step.closeAttempt]
      [Event.submitted 1, Event.submitted 2, Event.resolved 1, Event.resolved 2]
      [] 2 (by decide) (by decide)⟩

/-- Claim C3 counterexample: a queued transaction whose statement fails is
not rejected and its siblings do not continue draining when the catch-path
ROLLBACK itself fails: the drain emits no rejection for handle 1 (only the
orphan bookkeeping mark), stops with sibling 2 still queued, and reports
the abort. -/
theorem claim_C3_abort_counterexample :
    drainTransactionQueue
        (fun q => if q = "bad" then some "boom"
          else if q = "ROLLBACK" then some "cannot rollback - no transaction is active"
          else none)
        [⟨1, ["bad"]⟩, ⟨2, ["good"]⟩]
        = ([⟨2, ["good"]⟩], [Event.orphaned 1], true)
      ∧ (execTransaction
          (fun q => if q = "bad" then some "boom"
            else if q = "ROLLBACK" then some "cannot rollback - no transaction is active"
            else none)
          ⟨1, ["bad"]⟩).2 = TxOutcome.aborted "boom" := by
  refine ⟨by decide, by decide⟩

/-- Claim C3 amended: when the catch-path ROLLBACK succeeds, a queued
transaction whose try block fails (BEGIN, a body statement, or COMMIT) has
exactly its handle rejected with that first error, the statements sent on
the connection end with ROLLBACK (all-or-nothing), and the whole queue
still drains with each outcome a function of its own entry; when the
ROLLBACK itself fails, the handle never settles and the remaining queue
is not drained that cycle. -/
theorem claim_C3_transaction_isolation (env : Env)
    (ts : List ITransactionQueueEntry) (t : ITransactionQueueEntry)
    (e : String) (ht : t ∈ ts)
    (hfail : tryBlockError env t.queries = some e)
    (hrb : env "ROLLBACK" = none) :
    drainTransactionQueue env ts = ([], ts.map (txEvent env), false)
      ∧ txEvent env t = Event.rejected t.id e
      ∧ ((execTransaction env t).1).getLast? = some "ROLLBACK" := by
  refine ⟨drainTransactionQueue_rollback_ok env ts hrb, ?_,
    execTransaction_log_getLast env t e hfail⟩
  simp [txEvent, hfail]

/-- Witness for C3's amended claim: transaction 1 fails on "bad", its
successful ROLLBACK closes the connection log, and its handle is rejected
with "boom" while sibling transaction 2 still drains. -/
theorem claim_C3_transaction_isolation_witness :
    drainTransactionQueue (fun q => if q = "bad" then some "boom" else none)
        [⟨1, ["bad"]⟩, ⟨2, ["good"]⟩]
      = ([], [⟨1, ["bad"]⟩, ⟨2, ["good"]⟩].map
          (txEvent (fun q => if q = "bad" then some "boom" else none)), false)
      ∧ txEvent (fun q => if q = "bad" then some "boom" else none) ⟨1, ["bad"]⟩
        = Event.rejected 1 "boom"
      ∧ ((execTransaction (fun q => if q = "bad" then some "boom" else none)
          ⟨1, ["bad"]⟩).1).getLast? = some "ROLLBACK" :=
  claim_C3_transaction_isolation (fun q => if q = "bad" then some "boom" else none)
    [⟨1, ["bad"]⟩, ⟨2, ["good"]⟩] ⟨1, ["bad"]⟩ "boom" (by decide) (by decide) rfl

/-- Claim C4: createTable on both backends resolves successfully to its
caller even when the underlying table or index batch fails; the failure is
delivered only on the error event channel. -/
theorem claim_C4_createTable_swallows_errors
    (txn : List String → Except String Unit) (name : String)
    (fields : List ITableColumn) (pk : List String) (opts : Option String) :
    (SQLite.createTable txn name fields pk opts).1 = Except.ok ()
      ∧ (MySQL.createTable txn name fields pk opts).1 = Except.ok ()
      ∧ (∀ e, NodeDB.createTable txn DBType.SQLITE name fields pk opts = Except.error e →
          e ∈ (SQLite.createTable txn name fields pk opts).2)
      ∧ (∀ e, NodeDB.createTable txn DBType.MYSQL name fields pk opts = Except.error e →
          e ∈ (MySQL.createTable txn name fields pk opts).2) := by
  refine ⟨?_, ?_, ?_, ?_⟩
  · cases h : NodeDB.createTable txn DBType.SQLITE name fields pk opts <;>
      simp [SQLite.createTable, h]
  · cases h : NodeDB.createTable txn DBType.MYSQL name fields pk opts <;>
      simp [MySQL.createTable, h]
  · intro e he
    simp [SQLite.createTable, he]
  · intro e he
    simp [MySQL.createTable, he]

/-- Witness for C4: a driver that rejects every batch with "boom"; the
caller still sees success and "boom" appears on the error channel. -/
theorem claim_C4_createTable_swallows_errors_witness :
    (SQLite.createTable (fun _ => Except.error "boom") "accounts" [] ["id"] none).1
        = Except.ok ()
      ∧ "boom" ∈ (SQLite.createTable (fun _ => Except.error "boom")
          "accounts" [] ["id"] none).2 :=
  ⟨(claim_C4_createTable_swallows_errors (fun _ => Except.error "boom")
      "accounts" [] ["id"] none).1,
    (claim_C4_createTable_swallows_errors (fun _ => Except.error "boom")
      "accounts" [] ["id"] none).2.2.1 "boom" rfl⟩

/-- Claim C5 (code bug): SQLite.prepareMultiInsert drops the VALUES keyword
that the spec, the method's own documentation and the MySQL twin require:
its format string 'INSERT INTO %s (%s) %L' yields invalid SQL, whereas the
MySQL backend emits the keyword. -/
theorem claim_C5_sqlite_insert_missing_values :
    SQLite.prepareMultiInsert "accounts" ["id", "email"] (some [[1, 2]])
        = "INSERT INTO accounts (id,email) (1, 2)"
      ∧ strContains
          (SQLite.prepareMultiInsert "accounts" ["id", "email"] (some [[1, 2]]))
          "VALUES" = false
      ∧ MySQL.prepareMultiInsert "accounts" ["id", "email"] (some [[1, 2]])
        = "INSERT INTO accounts (id,email) VALUES (1, 2)" := by
  refine ⟨by decide, by decide, by decide⟩

/-- Claim C6 counterexample: the upsert text does not end with (nor even
contain) the single-spaced clauses the claim states, because each update
assignment is built from format(' %s = ...') with a leading space, leaving
two spaces after UPDATE and SET. -/
theorem claim_C6_upsert_counterexample :
    jsEndsWith (MySQL.prepareMultiUpdate "accounts" ["id"] ["email"] (some [[1, 2]]))
        "ON DUPLICATE KEY UPDATE email = VALUES(email)" = false
      ∧ strContains (MySQL.prepareMultiUpdate "accounts" ["id"] ["email"] (some [[1, 2]]))
        "ON DUPLICATE KEY UPDATE email = VALUES(email)" = false
      ∧ jsEndsWith (SQLite.prepareMultiUpdate "accounts" ["id"] ["email"] (some [[1, 2]]))
        "ON CONFLICT (id) DO UPDATE SET email = excluded.email" = false
      ∧ strContains (SQLite.prepareMultiUpdate "accounts" ["id"] ["email"] (some [[1, 2]]))
        "ON CONFLICT (id) DO UPDATE SET email = excluded.email" = false := by
  refine ⟨by decide, by decide, by decide, by decide⟩

/-- Claim C6 amended: prepareMultiUpdate builds the multi-insert over
primaryKey ++ columns and appends one assignment per non-key column in
order and none for key columns, each assignment preceded by a space, so
the accounts example ends in 'ON DUPLICATE KEY UPDATE  email =
VALUES(email)' (two spaces) for MySQL and 'ON CONFLICT (id) DO UPDATE SET
 email = excluded.email' for SQLite. -/
theorem claim_C6_upsert_amended :
    MySQL.prepareMultiUpdate "accounts" ["id"] ["email"] (some [[1, 2]])
        = "INSERT INTO accounts (id,email) VALUES (1, 2) ON DUPLICATE KEY UPDATE  email = VALUES(email)"
      ∧ jsEndsWith (MySQL.prepareMultiUpdate "accounts" ["id"] ["email"] (some [[1, 2]]))
          "ON DUPLICATE KEY UPDATE  email = VALUES(email)" = true
      ∧ SQLite.prepareMultiUpdate "accounts" ["id"] ["email"] (some [[1, 2]])
        = "INSERT INTO accounts (id,email) (1, 2) ON CONFLICT (id) DO UPDATE SET  email = excluded.email"
      ∧ jsEndsWith (SQLite.prepareMultiUpdate "accounts" ["id"] ["email"] (some [[1, 2]]))
          "ON CONFLICT (id) DO UPDATE SET  email = excluded.email" = true
      ∧ SQLite.prepareMultiUpdate "t" ["a"] ["b", "c"] none
        = "INSERT INTO t (a,b,c) %L ON CONFLICT (a) DO UPDATE SET  b = excluded.b, c = excluded.c"
      ∧ MySQL.prepareMultiUpdate "t" ["a"] ["b", "c"] none
        = "INSERT INTO t (a,b,c) VALUES %L ON DUPLICATE KEY UPDATE  b = VALUES(b), c = VALUES(c)" := by
  refine ⟨by decide, by decide, by decide, by decide, by decide, by decide⟩

/-- Claim C7 counterexample: prepareCreateTable performs no validation of
an empty primary-key list; instead of failing fast it returns the
partially-formed statement containing an empty PRIMARY KEY () clause. -/
theorem claim_C7_no_fail_fast_counterexample :
    (prepareCreateTable DBType.SQLITE "accounts"
        [⟨"id", "unsigned bigint", false, none, false, none⟩] [] none).table
        = "CREATE TABLE IF NOT EXISTS accounts (id unsigned bigint NOT NULL , PRIMARY KEY ()) ;"
      ∧ strContains (prepareCreateTable DBType.SQLITE "accounts"
          [⟨"id", "unsigned bigint", false, none, false, none⟩] [] none).table
          "PRIMARY KEY ()" = true := by
  refine ⟨by decide, by decide⟩

/-- Claim C7 amended: for a table spec with an empty primary-key list the
compiler returns normally on every backend identity, with SQL text
containing PRIMARY KEY () and no auxiliary statements, raising no error. -/
theorem claim_C7_amended_returns_malformed_sql :
    ∀ dbType : DBType,
      (prepareCreateTable dbType "accounts"
          [⟨"id", "unsigned bigint", false, none, false, none⟩] [] none).table
          = "CREATE TABLE IF NOT EXISTS accounts (id unsigned bigint NOT NULL , PRIMARY KEY ()) ;"
        ∧ strContains (prepareCreateTable dbType "accounts"
            [⟨"id", "unsigned bigint", false, none, false, none⟩] [] none).table
            "PRIMARY KEY ()" = true := by
  intro dbType
  have h1 : (prepareCreateTable dbType "accounts"
      [⟨"id", "unsigned bigint", false, none, false, none⟩] [] none).table
      = "CREATE TABLE IF NOT EXISTS accounts (id unsigned bigint NOT NULL , PRIMARY KEY ()) ;" := rfl
  refine ⟨h1, ?_⟩
  rw [h1]
  decide

/-- Claim C8: every unique-flagged column yields exactly one auxiliary
statement of the form CREATE UNIQUE INDEX IF NOT EXISTS
table_unique_column ON table (column); — the index list is exactly the
in-order map of that form over the unique-flagged columns — and the table
statement carries no uniqueness clause: its text is invariant under
clearing every unique flag.  On the accounts example the table text
contains PRIMARY KEY (id) and no UNIQUE token, and the index list is the
one claimed statement (the source appends a trailing semicolon to it). -/
theorem claim_C8_unique_index :
    (∀ (dbType : DBType) (name : String) (fields : List ITableColumn)
        (pk : List String) (opts : Option String),
        (prepareCreateTable dbType name fields pk opts).indexes
          = ((fields.filter fun f => f.unique).map fun col =>
              "CREATE UNIQUE INDEX IF NOT EXISTS " ++ name ++ "_unique_" ++
                col.name ++ " ON " ++ name ++ " (" ++ col.name ++ ");"))
      ∧ (∀ (dbType : DBType) (name : String) (fields : List ITableColumn)
          (pk : List String) (opts : Option String),
          (prepareCreateTable dbType name fields pk opts).table
            = (prepareCreateTable dbType name
                (fields.map fun f =>
                  ⟨f.name, f.type, f.nullable, f.foreign, false, f.default⟩)
                pk opts).table)
      ∧ (prepareCreateTable DBType.SQLITE "accounts"
          [⟨"id", "unsigned bigint", false, none, false, none⟩,
            ⟨"email", "text", false, none, true, none⟩] ["id"] none).indexes
        = ["CREATE UNIQUE INDEX IF NOT EXISTS accounts_unique_email ON accounts (email);"]
      ∧ strContains (prepareCreateTable DBType.SQLITE "accounts"
          [⟨"id", "unsigned bigint", false, none, false, none⟩,
            ⟨"email", "text", false, none, true, none⟩] ["id"] none).table
          "PRIMARY KEY (id)" = true
      ∧ strContains
          "CREATE UNIQUE INDEX IF NOT EXISTS accounts_unique_email ON accounts (email);"
          "CREATE UNIQUE INDEX IF NOT EXISTS accounts_unique_email ON accounts (email)" = true
      ∧ strContains (prepareCreateTable DBType.SQLITE "accounts"
          [⟨"id", "unsigned bigint", false, none, false, none⟩,
            ⟨"email", "text", false, none, true, none⟩] ["id"] none).table
          "UNIQUE" = false := by
  refine ⟨?_, ?_, by decide, by decide, by decide, by decide⟩
  · intro dbType name fields pk opts
    rfl
  · intro dbType name fields pk opts
    simp only [prepareCreateTable, List.map_map, List.filterMap_map]
    rfl

/-- Claim C9 counterexample: the MySQL backend does not follow the
statement verb.  Inserting three rows yields an OkPacket with changedRows
0, affectedRows 3 and insertId 7; the code's truthiness chain returns 3,
which is neither the last-inserted id 7 nor 1. -/
theorem claim_C9_counterexample :
    MySQL.queryCount ⟨some 0, some 3, some 7, none⟩ = some 3
      ∧ (3 : Int) ≠ 7 ∧ (3 : Int) ≠ 1 := by
  refine ⟨by decide, by decide, by decide⟩

/-- Claim C9 amended: the SQLite backend follows the verb exactly as
claimed (select yields the row count with the rows, insert the last
inserted id, update and delete the changed-row count, anything else 0),
while the MySQL backend's count is the first truthy value of changedRows,
affectedRows, insertId and then results.length, independent of the
statement text. -/
theorem claim_C9_count_semantics_amended :
    (∀ (q : String) (h : RunHandle) (rows : List Row),
        isSelect q = true →
          SQLite.queryResult q h rows = ((rows.length : Int), rows))
      ∧ (∀ (q : String) (h : RunHandle) (rows : List Row),
          isSelect q = false → jsStartsWith (jsToLower q) "insert" = true →
            SQLite.queryResult q h rows = (h.lastID, []))
      ∧ (∀ (q : String) (h : RunHandle) (rows : List Row),
          isSelect q = false → jsStartsWith (jsToLower q) "insert" = false →
            (jsStartsWith (jsToLower q) "update" ||
              jsStartsWith (jsToLower q) "delete") = true →
            SQLite.queryResult q h rows = (h.changes, []))
      ∧ (∀ (q : String) (h : RunHandle) (rows : List Row),
          isSelect q = false → jsStartsWith (jsToLower q) "insert" = false →
            (jsStartsWith (jsToLower q) "update" ||
              jsStartsWith (jsToLower q) "delete") = false →
            SQLite.queryResult q h rows = (0, []))
      ∧ (∀ r : MySQLResults, jsNumTruthy r.changedRows = true →
          MySQL.queryCount r = r.changedRows)
      ∧ (∀ r : MySQLResults, jsNumTruthy r.changedRows = false →
          jsNumTruthy r.affectedRows = true →
            MySQL.queryCount r = r.affectedRows)
      ∧ (∀ r : MySQLResults, jsNumTruthy r.changedRows = false →
          jsNumTruthy r.affectedRows = false → jsNumTruthy r.insertId = true →
            MySQL.queryCount r = r.insertId)
      ∧ (∀ r : MySQLResults, jsNumTruthy r.changedRows = false →
          jsNumTruthy r.affectedRows = false → jsNumTruthy r.insertId = false →
            MySQL.queryCount r = r.length) := by
  refine ⟨?_, ?_, ?_, ?_, ?_, ?_, ?_, ?_⟩
  · intro q h rows hsel
    simp [SQLite.queryResult, SQLite.allResult, hsel]
  · intro q h rows hsel hins
    simp [SQLite.queryResult, SQLite.runResult, hsel, hins]
  · intro q h rows hsel hins hup
    simp [SQLite.queryResult, SQLite.runResult, hsel, hins, hup]
  · intro q h rows hsel hins hup
    rcases Bool.or_eq_false_iff.mp hup with ⟨hu, hd⟩
    simp [SQLite.queryResult, SQLite.runResult, hsel, hins, hu, hd]
  · intro r hc
    simp [MySQL.queryCount, jsOr, hc]
  · intro r hc ha
    simp [MySQL.queryCount, jsOr, hc, ha]
  · intro r hc ha hi
    simp [MySQL.queryCount, jsOr, hc, ha, hi]
  · intro r hc ha hi
    simp [MySQL.queryCount, jsOr, hc, ha, hi]

/-- Witness for C9's amended claim at concrete statements and driver
results for each verb class. -/
theorem claim_C9_count_semantics_amended_witness :
    SQLite.queryResult "SELECT * FROM t" ⟨9, 4⟩ [[("a", JsVal.num 1)]]
        = ((1 : Int), [[("a", JsVal.num 1)]])
      ∧ SQLite.queryResult "INSERT INTO t (a) (1)" ⟨9, 4⟩ [] = ((9 : Int), [])
      ∧ SQLite.queryResult "DELETE FROM t" ⟨9, 4⟩ [] = ((4 : Int), [])
      ∧ SQLite.queryResult "PRAGMA user_version" ⟨9, 4⟩ [] = ((0 : Int), [])
      ∧ MySQL.queryCount ⟨none, none, none, some 2⟩ = some 2 :=
  ⟨(claim_C9_count_semantics_amended.1 "SELECT * FROM t" ⟨9, 4⟩
      [[("a", JsVal.num 1)]] (by decide)),
    (claim_C9_count_semantics_amended.2.1 "INSERT INTO t (a) (1)" ⟨9, 4⟩ []
      (by decide) (by decide)),
    (claim_C9_count_semantics_amended.2.2.1 "DELETE FROM t" ⟨9, 4⟩ []
      (by decide) (by decide) (by decide)),
    (claim_C9_count_semantics_amended.2.2.2.1 "PRAGMA user_version" ⟨9, 4⟩ []
      (by decide) (by decide) (by decide)),
    (claim_C9_count_semantics_amended.2.2.2.2.2.2.2 ⟨none, none, none, some 2⟩
      rfl rfl rfl)⟩

/-- Claim C10: getPragma is total only when the PRAGMA query produced at
least one row: with zero rows both branches read element 0 of the row list
and throw; with a first row it returns the single value when count is 1,
the per-row projection when rows[0][option] is truthy, and otherwise the
raw rows. -/
theorem claim_C10_getPragma_partiality (option : String) (count : Int)
    (rows : List Row) :
    (rows = [] → SQLite.getPragma option count rows = Except.error ())
      ∧ (∀ r rest, rows = r :: rest →
          SQLite.getPragma option count rows =
            (if count = 1 then
              Except.ok (PragmaOutcome.single (rowGet r (jsToLower option)))
            else if jsValTruthy (rowGet r (jsToLower option)) then
              Except.ok (PragmaOutcome.projected
                (rows.map fun x => rowGet x (jsToLower option)))
            else Except.ok (PragmaOutcome.raw rows))) := by
  constructor
  · intro hrows
    subst hrows
    by_cases hc : count = 1 <;> simp [SQLite.getPragma, hc]
  · intro r rest hrows
    subst hrows
    by_cases hc : count = 1 <;> simp [SQLite.getPragma, hc]

/-- Witness for C10: a zero-row PRAGMA result throws; a one-row result with
count 1 yields the single value. -/
theorem claim_C10_getPragma_partiality_witness :
    SQLite.getPragma "user_version" 0 [] = Except.error ()
      ∧ SQLite.getPragma "user_version" 1 [[("user_version", JsVal.num 5)]]
        = Except.ok (PragmaOutcome.single (JsVal.num 5)) :=
  ⟨(claim_C10_getPragma_partiality "user_version" 0 []).1 rfl,
    ((claim_C10_getPragma_partiality "user_version" 1
        [[("user_version", JsVal.num 5)]]).2
      [("user_version", JsVal.num 5)] [] rfl).trans rfl⟩

end NodeDB
